import Mathlib

/-!
Verification development for the startup orchestration of the CherryMusic
server (`cherrymusicserver/__init__.py`, class `CherryMusic`).

The orchestration is embedded shallowly: the observable effects of each
startup step (file writes, log lines, printed messages, the background
refresh launch, the service-layer start, `sys.exit` calls) are recorded as
an event trace over an explicit world state, and `sys.exit` short-circuits
the remaining steps, exactly as the raised `SystemExit` does in the source.

External collaborators (`pathprovider`, `database`, `sqlitecache`, the
CherryPy service layer) are opaque: paths are abstract string constants and
the result of `database.ensure_current_version` is a boolean field of the
world.  Long literal messages from the source are carried as string
constants; they are reproduced up to whitespace and punctuation that the
embedding cannot quote literally.
-/

namespace CherryMusic

/-- Model of `pathprovider.pidFile()`: the instance-marker path. -/
def pidFilePath : String := "cherrymusic.pid"

/-- Model of `pathprovider.configurationFile()`: the config-file path. -/
def configFilePath : String := "cherrymusic.conf"

/-- The refresh work `_update_if_necessary` triggers on the index engine:
nothing, a full rebuild (`cache.full_update()`), or a targeted update
(`cache.partial_update(*update)`). -/
inductive RefreshRequest where
  | noUpdate : RefreshRequest
  | fullUpdate : RefreshRequest
  | targetedUpdate (paths : List String) : RefreshRequest
deriving DecidableEq, Repr

/-- Observable effects of the startup steps, in program order. -/
inductive Event where
  | browserSetup : Event
  | writeConfig (path : String) : Event
  | configResolved : Event
  | logMsg (s : String) : Event
  | printMsg (s : String) : Event
  | createPid (pid : Nat) : Event
  | removePid : Event
  | resetDB : Event
  | ensureCurrent : Event
  | launchRefresh (r : RefreshRequest) : Event
  | startServer : Event
deriving DecidableEq, Repr

/-- The parts of the process environment the orchestration reads or writes. -/
structure World where
  pidExists : Bool
  configExists : Bool
  fallbackInUse : Bool
  dbReady : Bool
  pid : Nat
deriving DecidableEq, Repr

/-- Result of running a startup step: the world afterwards, the emitted
events, and `some code` when the step called `sys.exit code`. -/
structure Res where
  world : World
  events : List Event
  exit : Option Nat
deriving DecidableEq, Repr

/-- Sequencing of startup steps: a `sys.exit` in the first step skips the
second, mirroring the `SystemExit` propagation in the source. -/
def Res.andThen (r : Res) (f : World → Res) : Res :=
  match r.exit with
  | some _ => r
  | none =>
    let r2 := f r.world
    { world := r2.world, events := r.events ++ r2.events, exit := r2.exit }

/-- Message printed by `create_pid_file` when the marker already exists
(passed to `sys.exit`, hence exit status 1). -/
def pidExistsMsg : String :=
  "============================================\n" ++
  "Process id file " ++ pidFilePath ++ " already exists.\n" ++
  "If you are sure that cherrymusic is not running, you can delete this file and restart cherrymusic.\n" ++
  "============================================"

/-- Message printed by `delete_pid_file` when no marker exists. -/
def pidMissingMsg : String := "Error removing pid file, does not exist!"

/-- Log line of `setup_databases` when the schema gate refuses. -/
def schemaAbortMsg : String := "database schema update aborted. quitting."

/-- Welcome text of `printWelcomeAndExit` (abridged to one line). -/
def welcomeMsg : String :=
  "Welcome to CherryMusic! To get this party started, you need to edit the configuration file " ++
  configFilePath

/-- Migration text of `printMigrationNoticeAndExit` (abridged to one line). -/
def migrationNoticeMsg : String :=
  "Oops! CherryMusic changed some file locations. To continue, please move your config and data files."

/-- Log line after `--newconfig` wrote a pristine config file. -/
def newConfigWrittenMsg : String :=
  "New configuration file was written to:\n" ++ configFilePath ++ ".new"

/-- `CherryMusic.create_pid_file`: exit (status 1, via `sys.exit(msg)`)
when the marker exists, else write a marker holding the process id. -/
def create_pid_file (w : World) : Res :=
  if w.pidExists then
    { world := w, events := [.printMsg pidExistsMsg], exit := some 1 }
  else
    { world := { w with pidExists := true }, events := [.createPid w.pid], exit := none }

/-- `CherryMusic.delete_pid_file`: remove the marker if present, else just
print an informational message. -/
def delete_pid_file (w : World) : Res :=
  if w.pidExists then
    { world := { w with pidExists := false }, events := [.removePid], exit := none }
  else
    { world := w, events := [.printMsg pidMissingMsg], exit := none }

/-- `CherryMusic.stopAndCleanUp`: delete the marker, announce, `sys.exit(0)`. -/
def stopAndCleanUp (w : World) : Res :=
  (delete_pid_file w).andThen fun w2 =>
    { world := w2, events := [.printMsg "Exiting..."], exit := some 0 }

/-- `CherryMusic.setup_config`: optionally run the browser setup, honour
`--newconfig`, gate the first run (write defaults and exit, or print the
legacy-location migration notice), else resolve the configuration. -/
def setup_config (createNewConfig browsersetup : Bool) (w : World) : Res :=
  let pre : List Event := if browsersetup then [.browserSetup] else []
  if createNewConfig then
    { world := w
      events := pre ++ [.writeConfig (configFilePath ++ ".new"), .logMsg newConfigWrittenMsg]
      exit := some 0 }
  else if !w.configExists then
    if w.fallbackInUse then
      { world := w, events := pre ++ [.printMsg migrationNoticeMsg], exit := some 1 }
    else
      { world := { w with configExists := true }
        events := pre ++ [.writeConfig configFilePath, .printMsg welcomeMsg]
        exit := some 0 }
  else
    { world := w, events := pre ++ [.configResolved], exit := none }

/-- The reassignments of `update` at the top of `setup_databases`:
`dropfiledb` forces the empty tuple, and `setup` replaces a falsy value
(`None` or the empty tuple) by the empty tuple. -/
def effective_update (update : Option (List String)) (dropfiledb setup : Bool) :
    Option (List String) :=
  let u := if dropfiledb then some [] else update
  if setup then some (u.getD []) else u

/-- `CherryMusic._update_if_necessary`: a truthy list of paths triggers a
partial update, the empty tuple a full update, `None` nothing. -/
def update_if_necessary : Option (List String) → RefreshRequest
  | some (p :: ps) => .targetedUpdate (p :: ps)
  | some [] => .fullUpdate
  | none => .noUpdate

/-- `CherryMusic.setup_databases`: optionally reset the file db, run the
schema gate (exit 1 if refused), then launch the background refresh thread
and, outside setup mode, stop and clean up. -/
def setup_databases (update : Option (List String)) (dropfiledb setup : Bool)
    (w : World) : Res :=
  let ev0 : List Event := if dropfiledb then [.resetDB] else []
  let update := effective_update update dropfiledb setup
  let ev1 := ev0 ++ [Event.ensureCurrent]
  if !w.dbReady then
    { world := w, events := ev1 ++ [.logMsg schemaAbortMsg], exit := some 1 }
  else
    match update with
    | none => { world := w, events := ev1, exit := none }
    | some u =>
      let r : Res :=
        { world := w, events := ev1 ++ [.launchRefresh (update_if_necessary (some u))]
          exit := none }
      if !setup then r.andThen stopAndCleanUp else r

/-- `CherryMusic.start_server`: hand over to the CherryPy service layer
(opaque collaborator; blocks until shutdown). -/
def start_server (w : World) : Res :=
  { world := w, events := [.startServer], exit := none }

/-- `CherryMusic.__init__`: the whole startup sequence.  The single `setup`
flag is passed both as `browsersetup` to `setup_config` and as `setup` to
`setup_databases`, as in the source. -/
def run (update : Option (List String)) (createNewConfig dropfiledb setup : Bool)
    (w : World) : Res :=
  (setup_config createNewConfig setup w).andThen fun w1 =>
  (create_pid_file w1).andThen fun w2 =>
  (setup_databases update dropfiledb setup w2).andThen fun w3 =>
  (start_server w3).andThen fun w4 =>
  delete_pid_file w4

/-! ## Configuration resolution (`_init_config` and collaborators)

`_init_config` computes `defaults.replace(filecfg, on_error=log.e)` and then
`.replace(override_dict, on_error=log.e)`.  The `replace` method and the
snapshot type live in the `cherrymusicserver.configuration` module, which is
not part of the sources here; they are modelled from the spec. -/

/-- A configuration layer: keys with values.  Modelled from the spec: keys
are dotted strings, unique within a snapshot; values are opaque (strings
here). -/
abbrev Layer := List (String × String)

/-- Value of a key in a layer (first matching entry). -/
def lookup (c : Layer) (k : String) : Option String :=
  match c.find? (fun kv => kv.1 == k) with
  | some kv => some kv.2
  | none => none

/-- Keys of a layer are pairwise distinct. -/
def keysNodup (c : Layer) : Prop := (c.map Prod.fst).Nodup

instance (c : Layer) : Decidable (keysNodup c) := by
  unfold keysNodup; infer_instance

/-- Modelled from the spec: writing one key into a snapshot — update the
entry when the key is present, otherwise accept the unknown key as-is
(pass-through). -/
def setKey : Layer → String → String → Layer
  | [], k, v => [(k, v)]
  | kv :: rest, k, v =>
    if kv.1 == k then (k, v) :: rest else kv :: setKey rest k v

/-- Modelled from the spec: `Configuration.replace` of the missing
`cherrymusicserver.configuration` module.  The new layer is applied
key-by-key over the base layer; a key the collaborator layer rejects is
handed to the error handler (the returned list, standing for the `on_error`
log calls) and the base value is kept for that key only, so one bad key
never aborts the merge. -/
def Layer.replace (base : Layer) (new : Layer) (valid : String → String → Bool) :
    Layer × List String :=
  match new with
  | [] => (base, [])
  | kv :: rest =>
    if valid kv.1 kv.2 then Layer.replace (setKey base kv.1 kv.2) rest valid
    else
      let r := Layer.replace base rest valid
      (r.1, kv.1 :: r.2)

/-- `CherryMusic._init_config`: defaults overlaid by the persisted file
config overlaid by the override dict, with the per-key error handler;
collects everything handed to `log.e`. -/
def init_config (defaults filecfg override : Layer)
    (valid : String → String → Bool) : Layer × List String :=
  let custom := Layer.replace defaults filecfg valid
  let cfg := Layer.replace custom.1 override valid
  (cfg.1, custom.2 ++ cfg.2)

/-! ## Configuration diagnostics (`_check_for_config_updates`) -/

/-- One entry of a configuration snapshot as `cfg.to_list` yields it:
key, value and the hidden flag. -/
structure ConfigProperty where
  key : String
  value : String
  hidden : Bool
deriving DecidableEq, Repr

/-- Membership test `property.key in config` on a snapshot. -/
def memKey (c : List ConfigProperty) (k : String) : Bool :=
  c.any (fun p => p.key == k)

/-- Model of Python `s.partition('.')` on the character list: the part
before the first dot, and — when a dot occurs — the part after it. -/
def splitAtDot : List Char → List Char × Option (List Char)
  | [] => ([], none)
  | c :: cs =>
    if c = '.' then ([], some cs)
    else
      let r := splitAtDot cs
      (c :: r.1, r.2)

/-- The display transform of `_check_for_config_updates`:
`'[{0}]: {2}'.format(*(s.partition('.')))`, i.e. the part before the first
dot bracketed, then the part after it. -/
def transform (s : String) : String :=
  match splitAtDot s.data with
  | (before, some after) => "[" ++ String.mk before ++ "]: " ++ String.mk after
  | (before, none) => "[" ++ String.mk before ++ "]: "

/-- `CherryMusic._check_for_config_updates`: keys of the defaults that are
absent from the file config and not hidden are "new"; keys of the file
config absent from the defaults are "deprecated". -/
def check_for_config_updates (default known : List ConfigProperty) :
    List String × List String :=
  ((default.filter fun p => !memKey known p.key && !p.hidden).map fun p => transform p.key,
   (known.filter fun p => !memKey default p.key).map fun p => transform p.key)

/-- Log line announcing new config options. -/
def newOptionsMsg : String := "New configuration options available. Using default values for now."

/-- Log line announcing deprecated config options. -/
def deprecatedOptionsMsg : String := "The following configuration options are not used anymore."

/-- Log line hinting at `--newconfig`. -/
def newconfigHintMsg : String :=
  "Start with --newconfig to generate a new default config file next to your current one."

/-- The observable run of `_check_for_config_updates`: both reports go to
`log.i` only, and the function neither exits nor touches the world. -/
def check_for_config_updates_run (default known : List ConfigProperty)
    (w : World) : Res :=
  let d := check_for_config_updates default known
  { world := w
    events :=
      (if !d.1.isEmpty then [.logMsg newOptionsMsg] else []) ++
      (if !d.2.isEmpty then [.logMsg deprecatedOptionsMsg] else []) ++
      (if !d.1.isEmpty || !d.2.isEmpty then [.logMsg newconfigHintMsg] else [])
    exit := none }

/-! ## Operator consent (`_get_user_consent_for_db_schema_update`)

The prompt text is interactive I/O and is elided; the claim-relevant part
is the predicate applied to the operator's reply:
`input(msg).lower().strip() in ('y',)`. -/

/-- Model of Python `str.lower` on the ASCII range. -/
def pyLower (s : String) : String := String.mk (s.data.map Char.toLower)

/-- Python whitespace as recognised by `str.strip()`. -/
def pyIsSpace (c : Char) : Bool :=
  c == ' ' || c == '\t' || c == '\n' || c == '\r' || c == '\x0b' || c == '\x0c'

/-- Model of Python `str.strip()`: drop leading and trailing whitespace. -/
def pyStrip (s : String) : String :=
  String.mk (((s.data.dropWhile pyIsSpace).reverse.dropWhile pyIsSpace).reverse)

/-- `CherryMusic._get_user_consent_for_db_schema_update`, as a function of
the operator's reply line. -/
def get_user_consent_for_db_schema_update (reply : String) : Bool :=
  pyStrip (pyLower reply) == "y"

/-! ## Lemmas about the layered merge -/

/-- Unfolding `lookup` over a cons cell. -/
theorem lookup_cons (kv : String × String) (rest : Layer) (k : String) :
    lookup (kv :: rest) k = if kv.1 == k then some kv.2 else lookup rest k := by
  cases h : kv.1 == k <;> simp [lookup, List.find?, h]

/-- Writing a key makes it readable. -/
theorem lookup_setKey_self (c : Layer) (k v : String) :
    lookup (setKey c k v) k = some v := by
  induction c with
  | nil => simp [setKey, lookup_cons]
  | cons kv rest ih =>
    cases h : kv.1 == k with
    | true => simp [setKey, h, lookup_cons]
    | false => simp [setKey, h, lookup_cons, ih]

/-- Writing a key leaves every other key unchanged. -/
theorem lookup_setKey_other (c : Layer) (k v k' : String) (h : k' ≠ k) :
    lookup (setKey c k v) k' = lookup c k' := by
  have hbeq : (k == k') = false := by
    cases hb : k == k' with
    | true => exact absurd (eq_of_beq hb).symm h
    | false => rfl
  induction c with
  | nil => simp [setKey, lookup_cons, hbeq]
  | cons kv rest ih =>
    cases hh : kv.1 == k with
    | true =>
      have hkk : kv.1 = k := eq_of_beq hh
      simp [setKey, hh, lookup_cons, hbeq, hkk]
    | false => simp [setKey, hh, lookup_cons, ih]

/-- Helper: the per-key result of one overlay step, stated directly. -/
def overlayVal (base : Layer) (valid : String → String → Bool) (new : Layer)
    (k : String) : Option String :=
  match new.find? (fun kv => kv.1 == k) with
  | some kv => if valid kv.1 kv.2 then some kv.2 else lookup base k
  | none => lookup base k

/-- Characterisation of one `replace` layer: an accepted key of the new
layer wins, a rejected key and an absent key fall back to the base. -/
theorem lookup_replace (valid : String → String → Bool) :
    ∀ (new base : Layer) (k : String), keysNodup new →
      lookup (Layer.replace base new valid).1 k = overlayVal base valid new k := by
  intro new
  induction new with
  | nil => intro base k _; rfl
  | cons kv rest ih =>
    intro base k hnd
    unfold keysNodup at hnd
    rw [List.map_cons, List.nodup_cons] at hnd
    obtain ⟨hnotin, hndr⟩ := hnd
    cases hv : valid kv.1 kv.2 with
    | true =>
      rw [show (Layer.replace base (kv :: rest) valid) =
            Layer.replace (setKey base kv.1 kv.2) rest valid by
          simp [Layer.replace, hv]]
      rw [ih (setKey base kv.1 kv.2) k hndr]
      cases hk : kv.1 == k with
      | true =>
        have hkeq : kv.1 = k := eq_of_beq hk
        have hrest : rest.find? (fun kv' => kv'.1 == k) = none := by
          rw [List.find?_eq_none]
          intro x hx hbeq
          exact absurd (List.mem_map.mpr ⟨x, hx, (eq_of_beq hbeq).trans hkeq.symm⟩) hnotin
        subst hkeq
        simp [overlayVal, List.find?, hv, hrest, lookup_setKey_self]
      | false =>
        have hne : k ≠ kv.1 := fun he => by simp [he] at hk
        simp only [overlayVal, List.find?, hk]
        cases hfind : rest.find? (fun kv' => kv'.1 == k) with
        | none => simp [lookup_setKey_other base kv.1 kv.2 k hne]
        | some kv' =>
          cases hv' : valid kv'.1 kv'.2 with
          | true => simp [hv']
          | false => simp [hv', lookup_setKey_other base kv.1 kv.2 k hne]
    | false =>
      rw [show (Layer.replace base (kv :: rest) valid).1 =
            (Layer.replace base rest valid).1 by
          simp [Layer.replace, hv]]
      rw [ih base k hndr]
      cases hk : kv.1 == k with
      | true =>
        have hkeq : kv.1 = k := eq_of_beq hk
        have hrest : rest.find? (fun kv' => kv'.1 == k) = none := by
          rw [List.find?_eq_none]
          intro x hx hbeq
          exact absurd (List.mem_map.mpr ⟨x, hx, (eq_of_beq hbeq).trans hkeq.symm⟩) hnotin
        subst hkeq
        simp [overlayVal, List.find?, hv, hrest]
      | false =>
        simp [overlayVal, List.find?, hk]

/-- Everything handed to the error handler during one `replace` layer:
exactly the rejected keys, in order. -/
theorem replace_errs (valid : String → String → Bool) :
    ∀ (new base : Layer),
      (Layer.replace base new valid).2 =
        (new.filter fun kv => !valid kv.1 kv.2).map Prod.fst := by
  intro new
  induction new with
  | nil => intro base; rfl
  | cons kv rest ih =>
    intro base
    cases hv : valid kv.1 kv.2 with
    | true => simp [Layer.replace, hv, List.filter, ih]
    | false => simp [Layer.replace, hv, List.filter, ih]

/-- Overlay with an all-accepting layer: new value if present, else base. -/
theorem overlayVal_allvalid (base : Layer) (valid : String → String → Bool)
    (new : Layer) (k : String) (hv : ∀ a b, valid a b = true) :
    overlayVal base valid new k = (lookup new k).or (lookup base k) := by
  cases hfind : new.find? (fun kv => kv.1 == k) with
  | none => simp [overlayVal, lookup, hfind]
  | some kv => simp [overlayVal, lookup, hfind, hv kv.1 kv.2]

/-! ## Claims -/

/-- Claim C1, counterexample: in a mode that is not setup-only (here: a
plain startup asking for a partial refresh of `music`), the orchestrator
does NOT proceed to start the service layer after launching the refresh —
it launches the refresh and terminates the process (exit 0), contradicting
the claim's second half. -/
theorem C1_counterexample :
    (run (some ["music"]) false false false ⟨false, true, false, true, 7⟩).exit = some 0 ∧
    Event.startServer ∉
      (run (some ["music"]) false false false ⟨false, true, false, true, 7⟩).events ∧
    Event.launchRefresh (RefreshRequest.targetedUpdate ["music"]) ∈
      (run (some ["music"]) false false false ⟨false, true, false, true, 7⟩).events := by
  decide

/-- Claim C1, amended: the asymmetry is the other way round.  With a
non-none refresh request the orchestrator launches the background refresh
and then, in setup mode, proceeds to start the service layer without
waiting; in every other mode it terminates the process (cleanup and exit 0)
immediately after launching the refresh instead of starting the service
layer. -/
theorem C1_refresh_handoff (update : Option (List String))
    (dropfiledb setup : Bool) (w : World)
    (hc : w.configExists = true) (hp : w.pidExists = false) (hd : w.dbReady = true)
    (hu : effective_update update dropfiledb setup ≠ none) :
    Event.launchRefresh (update_if_necessary (effective_update update dropfiledb setup)) ∈
      (run update false dropfiledb setup w).events ∧
    (setup = true → Event.startServer ∈ (run update false dropfiledb setup w).events ∧
      (run update false dropfiledb setup w).exit = none) ∧
    (setup = false → (run update false dropfiledb setup w).exit = some 0 ∧
      Event.startServer ∉ (run update false dropfiledb setup w).events) := by
  cases hEq : effective_update update dropfiledb setup with
  | none => exact absurd hEq hu
  | some u =>
    cases setup <;> cases dropfiledb <;>
      simp [run, Res.andThen, setup_config, create_pid_file, setup_databases,
        start_server, stopAndCleanUp, delete_pid_file, hc, hp, hd, hEq,
        update_if_necessary]

/-- Witness for C1: a setup-mode startup with a refresh request reaches the
service layer. -/
theorem C1_witness :
    Event.startServer ∈
      (run (some ["m"]) false false true ⟨false, true, false, true, 5⟩).events :=
  ((C1_refresh_handoff (some ["m"]) false true ⟨false, true, false, true, 5⟩
    rfl rfl rfl (by decide)).2.1 rfl).1

/-- Claim C2, counterexample: with the drop-and-rebuild intent the schema
gate `ensure_current_version` IS still invoked (the reset does not bypass
it), contradicting the claim's "never invoked"; the refresh request however
is indeed forced to full. -/
theorem C2_counterexample :
    Event.ensureCurrent ∈
      (setup_databases (some ["a"]) true false ⟨true, true, false, true, 3⟩).events ∧
    Event.launchRefresh RefreshRequest.fullUpdate ∈
      (setup_databases (some ["a"]) true false ⟨true, true, false, true, 3⟩).events ∧
    Event.launchRefresh (RefreshRequest.targetedUpdate ["a"]) ∉
      (setup_databases (some ["a"]) true false ⟨true, true, false, true, 3⟩).events := by
  decide

/-- Claim C2, amended: drop-and-rebuild deletes the persisted index without
any consent for the deletion itself and forces the refresh request to full
(any partial targets are discarded), but the schema gate is still invoked
afterwards, and the full refresh is only launched when the gate passes. -/
theorem C2_drop_rebuild_forces_full (update : Option (List String))
    (setup : Bool) (w : World) :
    Event.resetDB ∈ (setup_databases update true setup w).events ∧
    Event.ensureCurrent ∈ (setup_databases update true setup w).events ∧
    (∀ q, Event.launchRefresh q ∈ (setup_databases update true setup w).events →
      q = RefreshRequest.fullUpdate) ∧
    (w.dbReady = true →
      Event.launchRefresh RefreshRequest.fullUpdate ∈
        (setup_databases update true setup w).events) := by
  cases hd : w.dbReady <;> cases setup <;> cases hw : w.pidExists <;>
    simp [setup_databases, effective_update, update_if_necessary, Res.andThen,
      stopAndCleanUp, delete_pid_file, hd, hw]

/-- Witness for C2: a drop-and-rebuild run with partial targets launches a
full refresh. -/
theorem C2_witness :
    Event.launchRefresh RefreshRequest.fullUpdate ∈
      (setup_databases (some ["x"]) true false ⟨false, true, false, true, 2⟩).events :=
  (C2_drop_rebuild_forces_full (some ["x"]) false ⟨false, true, false, true, 2⟩).2.2.2 rfl

/-- Claim C3, counterexample: when no configuration file exists but the
legacy fallback path is in use, the orchestrator does NOT write defaults
and exits with status 1 (migration notice), not 0. -/
theorem C3_counterexample :
    (setup_config false false ⟨false, false, true, true, 3⟩).exit = some 1 ∧
    Event.writeConfig configFilePath ∉
      (setup_config false false ⟨false, false, true, true, 3⟩).events := by
  decide

/-- Claim C3, amended: if no persisted configuration file exists and the
legacy fallback path is not in use, the orchestrator writes the default
configuration to the configuration file path, prints the welcome text and
exits with status 0. -/
theorem C3_first_run_writes_defaults (w : World)
    (hc : w.configExists = false) (hf : w.fallbackInUse = false) :
    setup_config false false w =
      { world := { w with configExists := true }
        events := [Event.writeConfig configFilePath, Event.printMsg welcomeMsg]
        exit := some 0 } := by
  simp [setup_config, hc, hf]

/-- Witness for C3: a concrete first run writes defaults and exits 0. -/
theorem C3_witness :
    setup_config false false ⟨false, false, false, true, 2⟩ =
      { world := ⟨false, true, false, true, 2⟩
        events := [Event.writeConfig configFilePath, Event.printMsg welcomeMsg]
        exit := some 0 } :=
  C3_first_run_writes_defaults ⟨false, false, false, true, 2⟩ rfl rfl

/-- Claim C4: whenever the schema gate returns false the orchestrator logs
the abort and exits with status 1; the event trace ends at the gate with
the log line — no refresh is launched, the service layer never starts, and
nothing is mutated after the gate. -/
theorem C4_schema_gate_failure_fatal (update : Option (List String))
    (dropfiledb setup : Bool) (w : World)
    (hc : w.configExists = true) (hp : w.pidExists = false)
    (hd : w.dbReady = false) :
    (run update false dropfiledb setup w).exit = some 1 ∧
    (run update false dropfiledb setup w).events =
      (if setup then [Event.browserSetup] else []) ++
      [Event.configResolved, Event.createPid w.pid] ++
      (if dropfiledb then [Event.resetDB] else []) ++
      [Event.ensureCurrent, Event.logMsg schemaAbortMsg] ∧
    Event.startServer ∉ (run update false dropfiledb setup w).events ∧
    (∀ q, Event.launchRefresh q ∉ (run update false dropfiledb setup w).events) := by
  cases setup <;> cases dropfiledb <;>
    simp [run, Res.andThen, setup_config, create_pid_file, setup_databases,
      hc, hp, hd]

/-- Witness for C4: a concrete refused gate exits with status 1. -/
theorem C4_witness :
    (run none false true false ⟨false, true, false, false, 4⟩).exit = some 1 :=
  (C4_schema_gate_failure_fatal none true false ⟨false, true, false, false, 4⟩
    rfl rfl rfl).1

/-- Claim C5: when the collaborator layer accepts every key, the effective
configuration resolves each key to the override value if present there,
else the persisted-file value if present there, else the default value. -/
theorem C5_config_priority (defaults filecfg override : Layer)
    (valid : String → String → Bool) (k : String)
    (hf : keysNodup filecfg) (ho : keysNodup override)
    (hv : ∀ a b, valid a b = true) :
    lookup (init_config defaults filecfg override valid).1 k =
      (lookup override k).or ((lookup filecfg k).or (lookup defaults k)) := by
  simp only [init_config]
  rw [lookup_replace valid override _ k ho, overlayVal_allvalid _ _ _ _ hv,
    lookup_replace valid filecfg defaults k hf, overlayVal_allvalid _ _ _ _ hv]

/-- Witness for C5: the spec scenario — defaults a=1 b=2, persisted a=5,
empty override — resolves a to 5. -/
theorem C5_witness :
    lookup (init_config [("a", "1"), ("b", "2")] [("a", "5")] []
      (fun _ _ => true)).1 "a" = some "5" :=
  C5_config_priority [("a", "1"), ("b", "2")] [("a", "5")] [] (fun _ _ => true)
    "a" (by decide) (by decide) (fun _ _ => rfl)

/-- Claim C6: one rejected key never aborts the merge — the rejected key is
handed to the error handler, the underlying layer's value is kept for that
key only, and every other key of the new layer still wins as usual. -/
theorem C6_merge_key_isolated (base new : Layer) (bad : String)
    (hnd : keysNodup new) :
    lookup (Layer.replace base new (fun a _ => a != bad)).1 bad = lookup base bad ∧
    (∀ k, k ≠ bad →
      lookup (Layer.replace base new (fun a _ => a != bad)).1 k =
        (lookup new k).or (lookup base k)) ∧
    (Layer.replace base new (fun a _ => a != bad)).2 =
      (new.filter fun kv => kv.1 == bad).map Prod.fst := by
  refine ⟨?_, ?_, ?_⟩
  · rw [lookup_replace _ new base bad hnd]
    cases hfind : new.find? (fun kv => kv.1 == bad) with
    | none => simp [overlayVal, hfind]
    | some kv =>
      have hkeq : kv.1 = bad := eq_of_beq (by simpa using List.find?_some hfind)
      simp [overlayVal, hfind, hkeq]
  · intro k hk
    rw [lookup_replace _ new base k hnd]
    cases hfind : new.find? (fun kv => kv.1 == k) with
    | none => simp [overlayVal, lookup, hfind]
    | some kv =>
      have hkeq : kv.1 = k := eq_of_beq (by simpa using List.find?_some hfind)
      have hne : (kv.1 != bad) = true := by simp [hkeq, hk]
      simp [overlayVal, lookup, hfind, hne]
  · rw [replace_errs]
    simp [bne]

/-- Witness for C6: with base a=1 b=2 and overlay a=5 b=7 where b is
rejected, the merged value of b is still 2. -/
theorem C6_witness :
    lookup (Layer.replace [("a", "1"), ("b", "2")] [("a", "5"), ("b", "7")]
      (fun a _ => a != "b")).1 "b" = some "2" :=
  (C6_merge_key_isolated [("a", "1"), ("b", "2")] [("a", "5"), ("b", "7")] "b"
    (by decide)).1

/-- Claim C7: the diagnostics report as new exactly the (transformed) keys
present in defaults, absent from the persisted file and not hidden, and as
deprecated exactly the keys present in the persisted file but absent from
defaults; the report run only logs, never exits, and leaves the world
untouched. -/
theorem C7_config_diagnostics (default known : List ConfigProperty) :
    (∀ t, t ∈ (check_for_config_updates default known).1 ↔
       ∃ p, p ∈ default ∧ memKey known p.key = false ∧ p.hidden = false ∧
         t = transform p.key) ∧
    (∀ t, t ∈ (check_for_config_updates default known).2 ↔
       ∃ p, p ∈ known ∧ memKey default p.key = false ∧ t = transform p.key) ∧
    (∀ w, (check_for_config_updates_run default known w).exit = none ∧
       (check_for_config_updates_run default known w).world = w) := by
  refine ⟨fun t => ?_, fun t => ?_, fun w => ⟨rfl, rfl⟩⟩
  · simp [check_for_config_updates, List.mem_filter]
    constructor
    · rintro ⟨p, ⟨hp, h1, h2⟩, ht⟩
      exact ⟨p, hp, h1, h2, ht.symm⟩
    · rintro ⟨p, hp, h1, h2, ht⟩
      exact ⟨p, ⟨hp, h1, h2⟩, ht.symm⟩
  · simp [check_for_config_updates, List.mem_filter]
    constructor
    · rintro ⟨p, ⟨hp, h1⟩, ht⟩
      exact ⟨p, hp, h1, ht.symm⟩
    · rintro ⟨p, hp, h1, ht⟩
      exact ⟨p, ⟨hp, h1⟩, ht.symm⟩

/-- The two diagnostic scenarios of the spec, evaluated on the embedding:
hidden defaults are suppressed from the new-keys report, and a persisted
key absent from the defaults is reported as deprecated. -/
theorem C7_scenarios :
    check_for_config_updates
      [⟨"a", "1", false⟩, ⟨"b", "2", true⟩] [⟨"a", "5", false⟩] = ([], []) ∧
    check_for_config_updates [⟨"a", "1", false⟩]
      [⟨"a", "1", false⟩, ⟨"z", "9", false⟩] = ([], ["[z]: "]) := by
  decide

/-- Claim C8: a pre-existing marker makes the startup exit with status 1
right after printing the explanation — the world is unchanged (no marker
created or removed) and no database, refresh or service step appears in the
trace; without a marker, one holding the process id is written. -/
theorem C8_marker_guard (update : Option (List String)) (dropfiledb : Bool)
    (w₁ w₂ : World) (hc : w₁.configExists = true) (hp : w₁.pidExists = true)
    (hp2 : w₂.pidExists = false) :
    run update false dropfiledb false w₁ =
      { world := w₁, events := [Event.configResolved, Event.printMsg pidExistsMsg]
        exit := some 1 } ∧
    create_pid_file w₂ =
      { world := { w₂ with pidExists := true }
        events := [Event.createPid w₂.pid], exit := none } := by
  constructor
  · simp [run, Res.andThen, setup_config, create_pid_file, hc, hp]
  · simp [create_pid_file, hp2]

/-- Witness for C8: a concrete startup against an existing marker stops
with exit status 1 and an unchanged world. -/
theorem C8_witness :
    run none false false false ⟨true, true, false, true, 9⟩ =
      { world := ⟨true, true, false, true, 9⟩
        events := [Event.configResolved, Event.printMsg pidExistsMsg]
        exit := some 1 } :=
  (C8_marker_guard none false ⟨true, true, false, true, 9⟩
    ⟨false, true, false, true, 9⟩ rfl rfl rfl).1

/-- Claim C9: `delete_pid_file` is total and idempotent — with no marker it
only prints an informational message and changes nothing, with a marker it
removes it, and a second release after a first never fails and changes
nothing. -/
theorem C9_release_idempotent (w : World) :
    (w.pidExists = false →
      delete_pid_file w =
        { world := w, events := [Event.printMsg pidMissingMsg], exit := none }) ∧
    (w.pidExists = true →
      delete_pid_file w =
        { world := { w with pidExists := false }, events := [Event.removePid]
          exit := none }) ∧
    (delete_pid_file w).exit = none ∧
    (delete_pid_file (delete_pid_file w).world).world = (delete_pid_file w).world ∧
    (delete_pid_file (delete_pid_file w).world).exit = none := by
  cases hw : w.pidExists <;> simp [delete_pid_file, hw]

/-- Witness for C9: releasing with no marker present is a safe no-op. -/
theorem C9_witness :
    delete_pid_file ⟨false, true, false, true, 1⟩ =
      { world := ⟨false, true, false, true, 1⟩
        events := [Event.printMsg pidMissingMsg], exit := none } :=
  (C9_release_idempotent ⟨false, true, false, true, 1⟩).1 rfl

/-- Claim C10: the consent callback grants consent exactly when the reply,
lowercased then stripped of surrounding whitespace, is the single character
y; in particular yes, the empty reply and n are refusals, while y and
whitespace-padded Y are consent. -/
theorem C10_consent_predicate :
    (∀ s, get_user_consent_for_db_schema_update s = true ↔
      pyStrip (pyLower s) = "y") ∧
    get_user_consent_for_db_schema_update "y" = true ∧
    get_user_consent_for_db_schema_update " Y " = true ∧
    get_user_consent_for_db_schema_update "yes" = false ∧
    get_user_consent_for_db_schema_update "" = false ∧
    get_user_consent_for_db_schema_update "n" = false := by
  refine ⟨fun s => ?_, by decide, by decide, by decide, by decide, by decide⟩
  simp [get_user_consent_for_db_schema_update]

end CherryMusic
